import Mathlib

/-!
Shallow embedding of the Acala `cdp_engine` module
(`src/modules/cdp_engine/src/lib.rs`) and proofs about its
liquidation, settlement, risk-management and fee-accrual logic.

Numeric domains: `Balance` is `u128`, modelled as `Nat` saturated at
`2^128 - 1`.  `Rate`, `Ratio`, `Price` and `ExchangeRate` are the
substrate `FixedU128` fixed-point type: an unsigned 128-bit inner value
with accuracy `10^18`, modelled as the raw inner `Nat`.
All arithmetic used by the module is saturating.
-/

namespace CdpEngine

/-- Collateral / stable currency identifier (opaque in the source). -/
abbrev CurrencyId := Nat

/-- Account identifier (opaque in the source). -/
abbrev AccountId := Nat

/-- `Balance`: unsigned 128-bit integer. -/
abbrev Balance := Nat

/-- Raw inner value of a `FixedU128` fixed-point number. -/
abbrev Fixed := Nat

abbrev Rate := Fixed
abbrev Ratio := Fixed
abbrev Price := Fixed
abbrev ExchangeRate := Fixed

/-- `FixedU128::DIV = 10^18`, the fixed-point accuracy. -/
def fixedDIV : Nat := 10 ^ 18

/-- Greatest value of `u128`, the saturation bound. -/
def u128Max : Nat := 2 ^ 128 - 1

/-- `u128::saturating_add`. -/
def satAdd (a b : Nat) : Nat := min (a + b) u128Max

/-- `FixedU128::saturating_mul`: fixed-point product `a * b / DIV`,
saturating at the `u128` bound. -/
def satMulFixed (a b : Fixed) : Fixed := min (a * b / fixedDIV) u128Max

/-- `FixedU128::saturating_mul_int` against a `u128`:
`a * n / DIV` saturating at the `u128` bound. -/
def satMulInt (a : Fixed) (n : Balance) : Balance := min (a * n / fixedDIV) u128Max

/-- `FixedU128::checked_from_rational(n, d)`: `None` when the denominator
is zero or the result overflows, otherwise the fixed-point quotient. -/
def checkedFromRational (n d : Nat) : Option Fixed :=
  if d = 0 then none
  else if n * fixedDIV / d ≤ u128Max then some (n * fixedDIV / d) else none

/-- Risk management params (struct `RiskManagementParams`). -/
structure RiskManagementParams where
  maximum_total_debit_value : Balance
  stability_fee : Option Rate
  liquidation_ratio : Option Ratio
  liquidation_penalty : Option Rate
  required_collateral_ratio : Option Ratio
  deriving Repr, DecidableEq

/-- `Default` for `RiskManagementParams`: every field at its default. -/
def RiskManagementParams.default : RiskManagementParams :=
  { maximum_total_debit_value := 0
    stability_fee := none
    liquidation_ratio := none
    liquidation_penalty := none
    required_collateral_ratio := none }

/-- Liquidation strategy (enum `LiquidationStrategy`). -/
inductive LiquidationStrategy where
  | Auction
  | Exchange
  deriving Repr, DecidableEq

/-- Errors of the cdp engine module (`decl_error`), plus `External` for a
dispatch error surfaced by an external collaborator call (the `?` on
`confiscate_collateral_and_debit`). -/
inductive Error where
  | ExceedDebitValueHardCap
  | BelowRequiredCollateralRatio
  | BelowLiquidationRatio
  | MustBeUnsafe
  | InvalidCollateralType
  | RemainDebitValueTooSmall
  | InvalidFeedPrice
  | NoDebitValue
  | AlreadyShutdown
  | MustAfterShutdown
  | External
  deriving Repr, DecidableEq

/-- The runtime configuration constants of the `Trait`. -/
structure Ctx where
  collateralCurrencyIds : List CurrencyId
  defaultLiquidationRatio : Ratio
  defaultDebitExchangeRate : ExchangeRate
  defaultLiquidationPenalty : Rate
  minimumDebitValue : Balance
  stableCurrencyId : CurrencyId
  maxSlippageSwapWithDEX : Ratio
  unsignedPriority : Nat

/-- The module's own storage (`decl_storage`). -/
structure EngineState where
  isShutdown : Bool
  debitExchangeRate : CurrencyId → Option ExchangeRate
  globalStabilityFee : Rate
  collateralParams : CurrencyId → RiskManagementParams

/-- External collaborators (loans ledger, price oracle, DEX, cdp
treasury), read or invoked by the engine.  Fallible treasury calls are
modelled by success predicates on their arguments. -/
structure Ext where
  debits : CurrencyId → AccountId → Balance
  collaterals : AccountId → CurrencyId → Balance
  totalDebits : CurrencyId → Balance
  getRelativePrice : CurrencyId → CurrencyId → Option Price
  getSupplyAmount : CurrencyId → CurrencyId → Balance → Balance
  getExchangeSlippage : CurrencyId → CurrencyId → Balance → Option Ratio
  onSystemSurplusOk : Balance → Bool
  confiscateOk : AccountId → CurrencyId → Balance → Balance → Bool
  swapCollateralToStableOk : CurrencyId → Balance → Balance → Bool

/-- `Self::collateral_params(currency_id)` storage getter. -/
def collateral_params (s : EngineState) (currency_id : CurrencyId) : RiskManagementParams :=
  s.collateralParams currency_id

/-- `Self::maximum_total_debit_value(currency_id)`. -/
def maximum_total_debit_value (s : EngineState) (currency_id : CurrencyId) : Balance :=
  (collateral_params s currency_id).maximum_total_debit_value

/-- `Self::required_collateral_ratio(currency_id)`. -/
def required_collateral_ratio (s : EngineState) (currency_id : CurrencyId) : Option Ratio :=
  (collateral_params s currency_id).required_collateral_ratio

/-- `Self::get_stability_fee(currency_id)`: the per-collateral extra fee
(`None` meaning zero) saturating-added to the global stability fee. -/
def get_stability_fee (s : EngineState) (currency_id : CurrencyId) : Rate :=
  satAdd ((collateral_params s currency_id).stability_fee.getD 0) s.globalStabilityFee

/-- `Self::get_liquidation_ratio(currency_id)`. -/
def get_liquidation_ratio (ctx : Ctx) (s : EngineState) (currency_id : CurrencyId) : Ratio :=
  (collateral_params s currency_id).liquidation_ratio.getD ctx.defaultLiquidationRatio

/-- `Self::get_liquidation_penalty(currency_id)`. -/
def get_liquidation_penalty (ctx : Ctx) (s : EngineState) (currency_id : CurrencyId) : Rate :=
  (collateral_params s currency_id).liquidation_penalty.getD ctx.defaultLiquidationPenalty

/-- `Self::get_debit_exchange_rate(currency_id)`. -/
def get_debit_exchange_rate (ctx : Ctx) (s : EngineState) (currency_id : CurrencyId) : ExchangeRate :=
  (s.debitExchangeRate currency_id).getD ctx.defaultDebitExchangeRate

/-- `Self::get_debit_value(currency_id, debit_balance)`.
Modelled from the spec (§4.3): the `DebitExchangeRateConvertor` module
file is not among the sources; per the spec it returns the debit units
multiplied by the debit exchange rate, projected to `Balance`,
saturating — i.e. `debit_exchange_rate(C).saturating_mul_int(debit)`. -/
def get_debit_value (ctx : Ctx) (s : EngineState) (currency_id : CurrencyId)
    (debit_balance : Balance) : Balance :=
  satMulInt (get_debit_exchange_rate ctx s currency_id) debit_balance

/-- `Self::calculate_collateral_ratio(currency_id, collateral_balance,
debit_balance, price)`. -/
def calculate_collateral_ratio (ctx : Ctx) (s : EngineState) (currency_id : CurrencyId)
    (collateral_balance : Balance) (debit_balance : Balance) (price : Price) : Ratio :=
  let locked_collateral_value := satMulInt price collateral_balance
  let debit_value := get_debit_value ctx s currency_id debit_balance
  (checkedFromRational locked_collateral_value debit_value).getD 0

/-- The source method is_cdp_unsafe (currency_id, who). -/
def is_cdp_unsafe' (ctx : Ctx) (s : EngineState) (e : Ext)
    (currency_id : CurrencyId) (who : AccountId) : Bool :=
  let debit_balance := e.debits currency_id who
  let collateral_balance := e.collaterals who currency_id
  let stable_currency_id := ctx.stableCurrencyId
  if debit_balance = 0 then
    false
  else
    match e.getRelativePrice currency_id stable_currency_id with
    | some feed_price =>
        decide (calculate_collateral_ratio ctx s currency_id collateral_balance
            debit_balance feed_price < get_liquidation_ratio ctx s currency_id)
    | none => false

/-- Result of a successful `settle_cdp_has_debit`: amounts passed to
`confiscate_collateral_and_debit` and the emitted event. -/
structure SettleOutcome where
  confiscate_collateral_amount : Balance
  confiscated_debit : Balance
  event : CurrencyId × AccountId
  deriving Repr, DecidableEq

/-- `Self::settle_cdp_has_debit(who, currency_id)`. -/
def settle_cdp_has_debit (ctx : Ctx) (s : EngineState) (e : Ext)
    (who : AccountId) (currency_id : CurrencyId) : Except Error SettleOutcome :=
  let debit_balance := e.debits currency_id who
  if debit_balance = 0 then .error .NoDebitValue
  else
    let collateral_balance := e.collaterals who currency_id
    match e.getRelativePrice ctx.stableCurrencyId currency_id with
    | none => .error .InvalidFeedPrice
    | some settle_price =>
      let bad_debt_value := get_debit_value ctx s currency_id debit_balance
      let confiscate_collateral_amount :=
        min (satMulInt settle_price bad_debt_value) collateral_balance
      if e.confiscateOk who currency_id confiscate_collateral_amount debit_balance then
        .ok { confiscate_collateral_amount := confiscate_collateral_amount
              confiscated_debit := debit_balance
              event := (currency_id, who) }
      else .error .External

/-- Result of a successful `liquidate_unsafe_cdp`: the chosen strategy,
the confiscated amounts, the treasury calls made and the emitted event.
`auction_created` records the `(amount, target)` arguments of
`create_collateral_auctions`; `swap_attempt` records the
`(supply, target)` arguments of `swap_collateral_to_stable`; `refund`
records the amount of a `transfer_collateral_to` refund, when one was
made. -/
structure LiquidateOutcome where
  liquidation_strategy : LiquidationStrategy
  confiscated_collateral : Balance
  confiscated_debit : Balance
  auction_created : Option (Balance × Balance)
  swap_attempt : Option (Balance × Balance)
  refund : Option Balance
  event : CurrencyId × AccountId × Balance × Balance × LiquidationStrategy
  deriving Repr, DecidableEq

/-- `Self::liquidate_unsafe_cdp(who, currency_id)`.  The refund amount
`collateral_balance - supply_collateral_amount` is the source's plain
(unchecked) subtraction, faithful for `Nat` as long as no underflow
occurs (settled separately). -/
def liquidate_unsafe_cdp (ctx : Ctx) (s : EngineState) (e : Ext)
    (who : AccountId) (currency_id : CurrencyId) : Except Error LiquidateOutcome :=
  let debit_balance := e.debits currency_id who
  let collateral_balance := e.collaterals who currency_id
  let stable_currency_id := ctx.stableCurrencyId
  if ¬ is_cdp_unsafe' ctx s e currency_id who then .error .MustBeUnsafe
  else if ¬ e.confiscateOk who currency_id collateral_balance debit_balance then .error .External
  else
    let bad_debt_value := get_debit_value ctx s currency_id debit_balance
    let target_stable_amount :=
      satAdd bad_debt_value
        (satMulInt (get_liquidation_penalty ctx s currency_id) bad_debt_value)
    let supply_collateral_amount :=
      e.getSupplyAmount currency_id stable_currency_id target_stable_amount
    let exchange_slippage :=
      e.getExchangeSlippage currency_id stable_currency_id supply_collateral_amount
    let slippage_limit := ctx.maxSlippageSwapWithDEX
    let slippage_ok : Bool :=
      match exchange_slippage with
      | some sl => decide (sl ≤ slippage_limit)
      | none => false
    let liquidation_strategy : LiquidationStrategy :=
      if supply_collateral_amount ≠ 0
          ∧ collateral_balance ≥ supply_collateral_amount
          ∧ slippage_limit > 0
          ∧ slippage_ok then
        .Exchange
      else .Auction
    let out : LiquidateOutcome :=
      match liquidation_strategy with
      | .Exchange =>
        if e.swapCollateralToStableOk currency_id supply_collateral_amount target_stable_amount then
          let refund_collateral_amount := collateral_balance - supply_collateral_amount
          { liquidation_strategy := .Exchange
            confiscated_collateral := collateral_balance
            confiscated_debit := debit_balance
            auction_created := none
            swap_attempt := some (supply_collateral_amount, target_stable_amount)
            refund := if refund_collateral_amount ≠ 0 then some refund_collateral_amount else none
            event := (currency_id, who, collateral_balance, bad_debt_value, .Exchange) }
        else
          { liquidation_strategy := .Exchange
            confiscated_collateral := collateral_balance
            confiscated_debit := debit_balance
            auction_created := none
            swap_attempt := some (supply_collateral_amount, target_stable_amount)
            refund := none
            event := (currency_id, who, collateral_balance, bad_debt_value, .Exchange) }
      | .Auction =>
          { liquidation_strategy := .Auction
            confiscated_collateral := collateral_balance
            confiscated_debit := debit_balance
            auction_created := some (collateral_balance, target_stable_amount)
            swap_attempt := none
            refund := none
            event := (currency_id, who, collateral_balance, bad_debt_value, .Auction) }
    .ok out

/-- `check_position_valid(currency_id, collateral_balance, debit_balance)`
from the `RiskManager` impl. -/
def check_position_valid (ctx : Ctx) (s : EngineState) (e : Ext)
    (currency_id : CurrencyId) (collateral_balance : Balance)
    (debit_balance : Balance) : Except Error Unit :=
  let debit_value := get_debit_value ctx s currency_id debit_balance
  if debit_value = 0 then .ok ()
  else
    match e.getRelativePrice currency_id ctx.stableCurrencyId with
    | none => .error .InvalidFeedPrice
    | some feed_price =>
      let collateral_ratio :=
        calculate_collateral_ratio ctx s currency_id collateral_balance debit_balance feed_price
      let after_required : Except Error Unit :=
        if collateral_ratio < get_liquidation_ratio ctx s currency_id then
          .error .BelowLiquidationRatio
        else if debit_value < ctx.minimumDebitValue then
          .error .RemainDebitValueTooSmall
        else .ok ()
      match required_collateral_ratio s currency_id with
      | some rcr =>
          if collateral_ratio < rcr then .error .BelowRequiredCollateralRatio
          else after_required
      | none => after_required

/-- `check_debit_cap(currency_id, total_debit_balance)` from the
`RiskManager` impl. -/
def check_debit_cap (ctx : Ctx) (s : EngineState)
    (currency_id : CurrencyId) (total_debit_balance : Balance) : Except Error Unit :=
  let hard_cap := maximum_total_debit_value s currency_id
  let total_debit_value := get_debit_value ctx s currency_id total_debit_balance
  if total_debit_value ≤ hard_cap then .ok () else .error .ExceedDebitValueHardCap

/-- `orml_traits::Change`: a tri-valued update. -/
inductive Change (α : Type) where
  | NoChange
  | NewValue (v : α)
  deriving Repr, DecidableEq

/-- The module's events (`decl_event`). -/
inductive EngineEvent where
  | LiquidateUnsafeCDP (c : CurrencyId) (who : AccountId) (collateral : Balance)
      (bad_debt : Balance) (strategy : LiquidationStrategy)
  | SettleCDPInDebit (c : CurrencyId) (who : AccountId)
  | StabilityFeeUpdated (c : CurrencyId) (v : Option Rate)
  | LiquidationRatioUpdated (c : CurrencyId) (v : Option Ratio)
  | LiquidationPenaltyUpdated (c : CurrencyId) (v : Option Rate)
  | RequiredCollateralRatioUpdated (c : CurrencyId) (v : Option Ratio)
  | MaximumTotalDebitValueUpdated (c : CurrencyId) (v : Balance)
  | GlobalStabilityFeeUpdated (v : Rate)
  deriving Repr, DecidableEq

/-- `set_collateral_params` dispatchable (origin check already passed):
returns the updated engine state together with the deposited events, in
order. -/
def set_collateral_params (ctx : Ctx) (s : EngineState) (currency_id : CurrencyId)
    (stability_fee : Change (Option Rate)) (liquidation_ratio : Change (Option Ratio))
    (liquidation_penalty : Change (Option Rate))
    (required_collateral_ratio : Change (Option Ratio))
    (maximum_total_debit_value : Change Balance) :
    Except Error (EngineState × List EngineEvent) :=
  if ¬ ctx.collateralCurrencyIds.contains currency_id then
    .error .InvalidCollateralType
  else
    let p0 := collateral_params s currency_id
    let (p1, ev1) :=
      match stability_fee with
      | .NewValue u => ({ p0 with stability_fee := u },
          [EngineEvent.StabilityFeeUpdated currency_id u])
      | .NoChange => (p0, [])
    let (p2, ev2) :=
      match liquidation_ratio with
      | .NewValue u => ({ p1 with liquidation_ratio := u },
          [EngineEvent.LiquidationRatioUpdated currency_id u])
      | .NoChange => (p1, [])
    let (p3, ev3) :=
      match liquidation_penalty with
      | .NewValue u => ({ p2 with liquidation_penalty := u },
          [EngineEvent.LiquidationPenaltyUpdated currency_id u])
      | .NoChange => (p2, [])
    let (p4, ev4) :=
      match required_collateral_ratio with
      | .NewValue u => ({ p3 with required_collateral_ratio := u },
          [EngineEvent.RequiredCollateralRatioUpdated currency_id u])
      | .NoChange => (p3, [])
    let (p5, ev5) :=
      match maximum_total_debit_value with
      | .NewValue v => ({ p4 with maximum_total_debit_value := v },
          [EngineEvent.MaximumTotalDebitValueUpdated currency_id v])
      | .NoChange => (p4, [])
    let s' := { s with collateralParams :=
        fun x => if x = currency_id then p5 else s.collateralParams x }
    .ok (s', ev1 ++ ev2 ++ ev3 ++ ev4 ++ ev5)

/-- Body of the `on_finalize` loop for one collateral type: accrue the
stability fee for `currency_id`, updating the stored exchange rate only
when `on_system_surplus` succeeds. -/
def accrue_currency (ctx : Ctx) (e : Ext) (s : EngineState)
    (currency_id : CurrencyId) : EngineState :=
  let debit_exchange_rate := get_debit_exchange_rate ctx s currency_id
  let stability_fee_rate := get_stability_fee s currency_id
  let total_debits := e.totalDebits currency_id
  if stability_fee_rate ≠ 0 ∧ total_debits ≠ 0 then
    let debit_exchange_rate_increment := satMulFixed debit_exchange_rate stability_fee_rate
    let total_debit_value := get_debit_value ctx s currency_id total_debits
    let issued_stable_coin_balance := satMulInt debit_exchange_rate_increment total_debit_value
    if e.onSystemSurplusOk issued_stable_coin_balance then
      let new_debit_exchange_rate := satAdd debit_exchange_rate debit_exchange_rate_increment
      { s with debitExchangeRate :=
          fun x => if x = currency_id then some new_debit_exchange_rate
                   else s.debitExchangeRate x }
    else s
  else s

/-- `on_finalize`: when not shut down, accrue the stability fee over all
collateral currency ids, in the declared order. -/
def on_finalize (ctx : Ctx) (e : Ext) (s : EngineState) : EngineState :=
  if s.isShutdown then s
  else ctx.collateralCurrencyIds.foldl (accrue_currency ctx e) s

/-- The unsigned calls that reach `validate_unsigned`; `other` stands
for any call that is not `liquidate` or `settle`. -/
inductive PalletCall where
  | liquidate (currency_id : CurrencyId) (who : AccountId)
  | settle (currency_id : CurrencyId) (who : AccountId)
  | other
  deriving Repr, DecidableEq

/-- `InvalidTransaction` rejection reasons used by the module. -/
inductive InvalidTx where
  | Stale
  | Call
  deriving Repr, DecidableEq

/-- The fields of the `ValidTransaction` record the module builds; the
provides-tag is modelled as the list of the tuple components. -/
structure ValidTx where
  priority : Nat
  provides : List Nat
  longevity : Nat
  propagate : Bool
  deriving Repr, DecidableEq

/-- `validate_unsigned(source, call)` from the `ValidateUnsigned` impl;
`block_number` is the current block number read for the liquidate tag. -/
def validate_unsigned (ctx : Ctx) (s : EngineState) (e : Ext)
    (block_number : Nat) (call : PalletCall) : Except InvalidTx ValidTx :=
  match call with
  | .liquidate currency_id who =>
      if ¬ is_cdp_unsafe' ctx s e currency_id who ∨ s.isShutdown then
        .error .Stale
      else
        .ok { priority := ctx.unsignedPriority
              provides := [block_number, currency_id, who]
              longevity := 64
              propagate := true }
  | .settle currency_id who =>
      let debit_balance := e.debits currency_id who
      if debit_balance = 0 ∨ ¬ s.isShutdown then
        .error .Stale
      else
        .ok { priority := ctx.unsignedPriority
              provides := [currency_id, who]
              longevity := 64
              propagate := true }
  | .other => .error .Call

/-! Concrete runtime data used to exercise the definitions, mirroring
the numbers of the spec's end-to-end scenarios: default liquidation
ratio 1.5, default liquidation penalty 0.1, minimum debit value 100,
max DEX slippage 0.1, default debit exchange rate 1.0. -/

/-- A concrete runtime configuration. -/
def ctxW : Ctx :=
  { collateralCurrencyIds := [1]
    defaultLiquidationRatio := 15 * 10 ^ 17
    defaultDebitExchangeRate := 10 ^ 18
    defaultLiquidationPenalty := 10 ^ 17
    minimumDebitValue := 100
    stableCurrencyId := 0
    maxSlippageSwapWithDEX := 10 ^ 17
    unsignedPriority := 1000 }

/-- A concrete engine state: not shut down, nothing stored. -/
def sW : EngineState :=
  { isShutdown := false
    debitExchangeRate := fun _ => none
    globalStabilityFee := 0
    collateralParams := fun _ => RiskManagementParams.default }

/-- Concrete external collaborators: account 7 holds a CDP of 100
collateral units and 200 debit units in currency 1, the oracle prices
currency 1 at 1.0 stable and the stable at 2.0 collateral, the DEX
quotes a supply of 60 at slippage 0.05, and every treasury call
succeeds. -/
def eW : Ext :=
  { debits := fun c a => if c = 1 ∧ a = 7 then 200 else 0
    collaterals := fun a c => if c = 1 ∧ a = 7 then 100 else 0
    totalDebits := fun c => if c = 1 then 1000 else 0
    getRelativePrice := fun f t =>
      if f = 1 ∧ t = 0 then some (10 ^ 18)
      else if f = 0 ∧ t = 1 then some (2 * 10 ^ 18) else none
    getSupplyAmount := fun _ _ _ => 60
    getExchangeSlippage := fun _ _ _ => some (5 * 10 ^ 16)
    onSystemSurplusOk := fun _ => true
    confiscateOk := fun _ _ _ _ => true
    swapCollateralToStableOk := fun _ _ _ => true }

/-- The successful `Exchange` liquidation of the concrete unsafe CDP:
supply 60 out of 100 collateral is swapped, 40 refunded. -/
def outW1 : LiquidateOutcome :=
  { liquidation_strategy := .Exchange
    confiscated_collateral := 100
    confiscated_debit := 200
    auction_created := none
    swap_attempt := some (60, 220)
    refund := some 40
    event := (1, 7, 100, 200, .Exchange) }

/-- External collaborators identical to `eW` except that every treasury
swap fails. -/
def eW2 : Ext := { eW with swapCollateralToStableOk := fun _ _ _ => false }

/-- The `Exchange` liquidation of the concrete unsafe CDP when the swap
fails: no refund, no auction, the event still carries `Exchange`. -/
def outW2 : LiquidateOutcome :=
  { liquidation_strategy := .Exchange
    confiscated_collateral := 100
    confiscated_debit := 200
    auction_created := none
    swap_attempt := some (60, 220)
    refund := none
    event := (1, 7, 100, 200, .Exchange) }

/-- The concrete engine state with a 0.01 global stability fee. -/
def sW3 : EngineState := { sW with globalStabilityFee := 10 ^ 16 }

/-- The risk params obtained by merging a `set_collateral_params`
argument tuple into previously stored params: each field supplied as
`NewValue` is overwritten, the others are kept. -/
def merged_params (p : RiskManagementParams) (sf : Change (Option Rate))
    (lr : Change (Option Ratio)) (lp : Change (Option Rate))
    (rcr : Change (Option Ratio)) (mtdv : Change Balance) : RiskManagementParams :=
  { maximum_total_debit_value :=
      match mtdv with | .NewValue v => v | .NoChange => p.maximum_total_debit_value
    stability_fee :=
      match sf with | .NewValue u => u | .NoChange => p.stability_fee
    liquidation_ratio :=
      match lr with | .NewValue u => u | .NoChange => p.liquidation_ratio
    liquidation_penalty :=
      match lp with | .NewValue u => u | .NoChange => p.liquidation_penalty
    required_collateral_ratio :=
      match rcr with | .NewValue u => u | .NoChange => p.required_collateral_ratio }

/-- The events a `set_collateral_params` call deposits: one per field
supplied as `NewValue`, in field order. -/
def update_events (c : CurrencyId) (sf : Change (Option Rate))
    (lr : Change (Option Ratio)) (lp : Change (Option Rate))
    (rcr : Change (Option Ratio)) (mtdv : Change Balance) : List EngineEvent :=
  (match sf with
   | .NewValue u => [EngineEvent.StabilityFeeUpdated c u] | .NoChange => [])
  ++ (match lr with
   | .NewValue u => [EngineEvent.LiquidationRatioUpdated c u] | .NoChange => [])
  ++ (match lp with
   | .NewValue u => [EngineEvent.LiquidationPenaltyUpdated c u] | .NoChange => [])
  ++ (match rcr with
   | .NewValue u => [EngineEvent.RequiredCollateralRatioUpdated c u] | .NoChange => [])
  ++ (match mtdv with
   | .NewValue v => [EngineEvent.MaximumTotalDebitValueUpdated c v] | .NoChange => [])

/-- The engine state left by a first `set_collateral_params` on the
concrete runtime: stability fee set to `some 3` and the debit hard cap
to 5000 for currency 1. -/
def sAfterFirstCall : EngineState :=
  match set_collateral_params ctxW sW 1 (Change.NewValue (some 3)) Change.NoChange
      Change.NoChange Change.NoChange (Change.NewValue 5000) with
  | .ok (s1, _) => s1
  | .error _ => sW

/-! ## Claims -/

/-- **C3.** For every collateral id `C` and account `A`,
the predicate is_cdp_unsafe (C, A) returns `false` when the account's debit balance
is zero, returns `false` when the oracle has no relative price for `C`
in the stable currency, and otherwise returns `true` exactly when the
computed collateral ratio is strictly below `liquidation_ratio(C)` (a
position exactly at the liquidation ratio is safe). -/
theorem C3_is_cdp_unsafe_characterisation (ctx : Ctx) (s : EngineState) (e : Ext)
    (c : CurrencyId) (a : AccountId) :
    (e.debits c a = 0 → is_cdp_unsafe' ctx s e c a = false)
    ∧ (e.getRelativePrice c ctx.stableCurrencyId = none →
        is_cdp_unsafe' ctx s e c a = false)
    ∧ (∀ p, e.debits c a ≠ 0 → e.getRelativePrice c ctx.stableCurrencyId = some p →
        (is_cdp_unsafe' ctx s e c a = true ↔
          calculate_collateral_ratio ctx s c (e.collaterals a c) (e.debits c a) p
            < get_liquidation_ratio ctx s c)) := by
  refine ⟨fun h0 => ?_, fun hp => ?_, fun p hd hp => ?_⟩
  · simp [is_cdp_unsafe', h0]
  · simp [is_cdp_unsafe', hp]
  · simp [is_cdp_unsafe', hp, hd]

/-- Witness for C3 at the concrete CDP: 100 collateral against 200
debit at price 1.0 is strictly below the 1.5 liquidation ratio, hence
unsafe. -/
theorem C3_witness : is_cdp_unsafe' ctxW sW eW 1 7 = true :=
  ((C3_is_cdp_unsafe_characterisation ctxW sW eW 1 7).2.2 (10 ^ 18)
    (by decide) (by decide)).mpr (by decide)

/-- **C9.** For every collateral `C`, collateral balance, and price,
`calculate_collateral_ratio` returns the default `Ratio` (zero) when
the debit value is zero; the division by a zero debit value never
panics (the embedding is total) and yields this defined sentinel. -/
theorem C9_collateral_ratio_zero_debit (ctx : Ctx) (s : EngineState)
    (c : CurrencyId) (collateral_balance : Balance) (debit_balance : Balance)
    (price : Price) (h : get_debit_value ctx s c debit_balance = 0) :
    calculate_collateral_ratio ctx s c collateral_balance debit_balance price = 0 := by
  unfold calculate_collateral_ratio
  rw [h]
  simp [checkedFromRational]

/-- Witness for C9: a zero debit balance has debit value zero, and the
collateral ratio computed for it is zero. -/
theorem C9_witness :
    get_debit_value ctxW sW 1 0 = 0
      ∧ calculate_collateral_ratio ctxW sW 1 100 0 (10 ^ 18) = 0 :=
  ⟨by decide, C9_collateral_ratio_zero_debit ctxW sW 1 100 0 (10 ^ 18) (by decide)⟩

/-- **C5.** `validate_unsigned` accepts `liquidate(C, A)` iff
the predicate is_cdp_unsafe (C, A) holds and the system is not shut down, rejecting
it as `Stale` otherwise, and on acceptance produces a validity record
with provides-tag `(current block number, C, A)` and longevity 64; it
accepts `settle(C, A)` iff the account's debit balance is positive and
the system is shut down, with provides-tag `(C, A)`; any other unsigned
call is rejected as `Call`. -/
theorem C5_validate_unsigned_characterisation (ctx : Ctx) (s : EngineState) (e : Ext)
    (bn : Nat) (c : CurrencyId) (a : AccountId) :
    (validate_unsigned ctx s e bn (.liquidate c a) =
      (if is_cdp_unsafe' ctx s e c a = true ∧ s.isShutdown = false then
        .ok { priority := ctx.unsignedPriority, provides := [bn, c, a]
              longevity := 64, propagate := true }
       else .error .Stale))
    ∧ (validate_unsigned ctx s e bn (.settle c a) =
      (if 0 < e.debits c a ∧ s.isShutdown = true then
        .ok { priority := ctx.unsignedPriority, provides := [c, a]
              longevity := 64, propagate := true }
       else .error .Stale))
    ∧ validate_unsigned ctx s e bn .other = .error .Call := by
  refine ⟨?_, ?_, rfl⟩
  · unfold validate_unsigned
    by_cases h1 : is_cdp_unsafe' ctx s e c a = true <;>
      by_cases h2 : s.isShutdown = true <;>
      simp_all
  · unfold validate_unsigned
    by_cases h1 : e.debits c a = 0 <;>
      by_cases h2 : s.isShutdown = true <;>
      simp_all [Nat.pos_iff_ne_zero]

/-- **C4.** `settle_cdp_has_debit(A, C)` fails with `NoDebitValue` when
the account's debit balance is zero; otherwise it fails with
`InvalidFeedPrice` when the oracle has no stable-to-collateral relative
price; otherwise it confiscates exactly
`min(price * debit value, collateral balance)` collateral together with
the entire debit via the ledger, and emits `SettleCDPInDebit(C, A)`. -/
theorem C4_settle_cdp_has_debit_characterisation (ctx : Ctx) (s : EngineState)
    (e : Ext) (who : AccountId) (c : CurrencyId) :
    (e.debits c who = 0 →
      settle_cdp_has_debit ctx s e who c = .error .NoDebitValue)
    ∧ (e.debits c who ≠ 0 → e.getRelativePrice ctx.stableCurrencyId c = none →
      settle_cdp_has_debit ctx s e who c = .error .InvalidFeedPrice)
    ∧ (∀ p, e.debits c who ≠ 0 →
      e.getRelativePrice ctx.stableCurrencyId c = some p →
      e.confiscateOk who c
        (min (satMulInt p (get_debit_value ctx s c (e.debits c who)))
          (e.collaterals who c)) (e.debits c who) = true →
      settle_cdp_has_debit ctx s e who c = .ok
        { confiscate_collateral_amount :=
            min (satMulInt p (get_debit_value ctx s c (e.debits c who)))
              (e.collaterals who c)
          confiscated_debit := e.debits c who
          event := (c, who) }) := by
  refine ⟨fun h0 => ?_, fun hd hp => ?_, fun p hd hp hok => ?_⟩
  · simp [settle_cdp_has_debit, h0]
  · simp [settle_cdp_has_debit, hd, hp]
  · simp [settle_cdp_has_debit, hd, hp, hok]

/-- Witness for C4 at the concrete shutdown scenario: debit 200 at
exchange rate 1.0 and settle price 2.0 against 100 collateral
confiscates `min(400, 100) = 100`. -/
theorem C4_witness :
    settle_cdp_has_debit ctxW sW eW 7 1 = .ok
      { confiscate_collateral_amount := 100
        confiscated_debit := 200
        event := (1, 7) } := by
  have h := (C4_settle_cdp_has_debit_characterisation ctxW sW eW 7 1).2.2
    (2 * 10 ^ 18) (by decide) (by decide) (by decide)
  rw [h]
  rfl

/-- **C6.** `check_position_valid` accepts whenever the debit value is
zero (regardless of collateral, including zero); otherwise it fails
`InvalidFeedPrice` when no oracle price is available, fails
`BelowRequiredCollateralRatio` when `required_collateral_ratio(C)` is
set and the collateral ratio is below it, fails
`BelowLiquidationRatio` when the ratio is below
`liquidation_ratio(C)`, fails `RemainDebitValueTooSmall` when the debit
value is below `MinimumDebitValue`, and accepts otherwise. -/
theorem C6_check_position_valid_characterisation (ctx : Ctx) (s : EngineState)
    (e : Ext) (c : CurrencyId) (collateral_balance debit_balance : Balance) :
    (get_debit_value ctx s c debit_balance = 0 →
      check_position_valid ctx s e c collateral_balance debit_balance = .ok ())
    ∧ (get_debit_value ctx s c debit_balance ≠ 0 →
      e.getRelativePrice c ctx.stableCurrencyId = none →
      check_position_valid ctx s e c collateral_balance debit_balance =
        .error .InvalidFeedPrice)
    ∧ (∀ p rcr, get_debit_value ctx s c debit_balance ≠ 0 →
      e.getRelativePrice c ctx.stableCurrencyId = some p →
      required_collateral_ratio s c = some rcr →
      calculate_collateral_ratio ctx s c collateral_balance debit_balance p < rcr →
      check_position_valid ctx s e c collateral_balance debit_balance =
        .error .BelowRequiredCollateralRatio)
    ∧ (∀ p, get_debit_value ctx s c debit_balance ≠ 0 →
      e.getRelativePrice c ctx.stableCurrencyId = some p →
      (∀ rcr, required_collateral_ratio s c = some rcr →
        ¬ calculate_collateral_ratio ctx s c collateral_balance debit_balance p < rcr) →
      check_position_valid ctx s e c collateral_balance debit_balance =
        (if calculate_collateral_ratio ctx s c collateral_balance debit_balance p <
            get_liquidation_ratio ctx s c then
          .error .BelowLiquidationRatio
         else if get_debit_value ctx s c debit_balance < ctx.minimumDebitValue then
          .error .RemainDebitValueTooSmall
         else .ok ())) := by
  refine ⟨fun h0 => ?_, fun hd hp => ?_, fun p rcr hd hp hr hlt => ?_,
    fun p hd hp hno => ?_⟩
  · simp [check_position_valid, h0]
  · simp [check_position_valid, hd, hp]
  · simp [check_position_valid, hd, hp, hr, hlt]
  · cases hr : required_collateral_ratio s c with
    | none => simp [check_position_valid, hd, hp, hr]
    | some rcr => simp [check_position_valid, hd, hp, hr, hno rcr hr]

/-- Witness for C6: a position with zero debit (hence zero debit value)
is accepted even with zero collateral. -/
theorem C6_witness :
    check_position_valid ctxW sW eW 1 0 0 = .ok () :=
  (C6_check_position_valid_characterisation ctxW sW eW 1 0 0).1 (by decide)

/-- The boolean slippage test of the strategy decision holds exactly
when the DEX slippage is defined and at most the limit. -/
theorem slippage_ok_iff (o : Option Ratio) (lim : Ratio) :
    (match o with
     | some sl => decide (sl ≤ lim)
     | none => false) = true ↔ ∃ sl, o = some sl ∧ sl ≤ lim := by
  cases o <;> simp

/-- **C1.** For every call to `liquidate_unsafe_cdp` on an unsafe CDP,
the `Exchange` strategy is chosen iff all of: the DEX supply amount
quoted for the target stable amount is positive, the CDP's collateral
balance is at least that supply amount, `MaxSlippageSwapWithDEX` is
positive, and the DEX exchange slippage is defined and at most
`MaxSlippageSwapWithDEX`; in every other case the `Auction` strategy is
chosen and `create_collateral_auctions` is called with the full
confiscated collateral and the target stable amount. -/
theorem C1_liquidation_strategy_decision (ctx : Ctx) (s : EngineState) (e : Ext)
    (who : AccountId) (c : CurrencyId) (out : LiquidateOutcome)
    (h : liquidate_unsafe_cdp ctx s e who c = .ok out) :
    let bad_debt_value := get_debit_value ctx s c (e.debits c who)
    let target_stable_amount := satAdd bad_debt_value
      (satMulInt (get_liquidation_penalty ctx s c) bad_debt_value)
    let supply := e.getSupplyAmount c ctx.stableCurrencyId target_stable_amount
    let slip := e.getExchangeSlippage c ctx.stableCurrencyId supply
    (out.liquidation_strategy = .Exchange ↔
      (supply ≠ 0 ∧ e.collaterals who c ≥ supply
        ∧ ctx.maxSlippageSwapWithDEX > 0
        ∧ ∃ sl, slip = some sl ∧ sl ≤ ctx.maxSlippageSwapWithDEX))
    ∧ (out.liquidation_strategy = .Auction →
        out.auction_created = some (e.collaterals who c, target_stable_amount)
          ∧ out.confiscated_collateral = e.collaterals who c) := by
  intro bad_debt_value target_stable_amount supply slip
  simp only [liquidate_unsafe_cdp] at h
  split at h
  · exact absurd h (by simp)
  split at h
  · exact absurd h (by simp)
  split at h
  · rename_i hstrat
    split at hstrat
    · rename_i hcond
      obtain ⟨h1, h2, h3, h4⟩ := hcond
      split at h
      all_goals
        injection h with h
        subst h
        refine ⟨?_, by intro hx; exact absurd hx (by simp)⟩
        simp only [true_iff]
        exact ⟨h1, h2, h3, (slippage_ok_iff _ _).mp h4⟩
    · exact absurd hstrat (by simp)
  · rename_i hstrat
    split at hstrat
    · exact absurd hstrat (by simp)
    · rename_i hcond
      injection h with h
      subst h
      refine ⟨?_, fun _ => ⟨rfl, rfl⟩⟩
      simp only [reduceCtorEq, false_iff]
      intro ⟨h1, h2, h3, h4⟩
      exact hcond ⟨h1, h2, h3, (slippage_ok_iff _ _).mpr h4⟩

/-- Witness for C1 at the concrete unsafe CDP: the DEX quote satisfies
all four conditions, so the strategy is `Exchange`. -/
theorem C1_witness :
    outW1.liquidation_strategy = LiquidationStrategy.Exchange := by
  have h := C1_liquidation_strategy_decision ctxW sW eW 7 1 outW1 rfl
  simp only [] at h
  exact h.1.mpr ⟨by decide, by decide, by decide, 5 * 10 ^ 16, rfl, by decide⟩

/-- **C10.** In `liquidate_unsafe_cdp`'s `Exchange` branch the refund is
computed by unchecked subtraction of the DEX supply amount from the
collateral balance; this can never underflow, because the `Exchange`
strategy is chosen only when the collateral balance is at least the
supply amount. -/
theorem C10_refund_subtraction_no_underflow (ctx : Ctx) (s : EngineState)
    (e : Ext) (who : AccountId) (c : CurrencyId) (out : LiquidateOutcome)
    (h : liquidate_unsafe_cdp ctx s e who c = .ok out)
    (hx : out.liquidation_strategy = .Exchange) :
    let bad_debt_value := get_debit_value ctx s c (e.debits c who)
    let target_stable_amount := satAdd bad_debt_value
      (satMulInt (get_liquidation_penalty ctx s c) bad_debt_value)
    e.getSupplyAmount c ctx.stableCurrencyId target_stable_amount
      ≤ e.collaterals who c := by
  intro bad_debt_value target_stable_amount
  simp only [liquidate_unsafe_cdp] at h
  split at h
  · exact absurd h (by simp)
  split at h
  · exact absurd h (by simp)
  split at h
  · rename_i hstrat
    split at hstrat
    · rename_i hcond
      exact hcond.2.1
    · exact absurd hstrat (by simp)
  · rename_i hstrat
    injection h with h
    subst h
    exact absurd hx (by simp)

/-- Witness for C10 at the concrete unsafe CDP: the supply 60 is at
most the collateral balance 100. -/
theorem C10_witness :
    eW.getSupplyAmount 1 ctxW.stableCurrencyId
        (satAdd (get_debit_value ctxW sW 1 (eW.debits 1 7))
          (satMulInt (get_liquidation_penalty ctxW sW 1)
            (get_debit_value ctxW sW 1 (eW.debits 1 7))))
      ≤ eW.collaterals 7 1 :=
  C10_refund_subtraction_no_underflow ctxW sW eW 7 1 outW1 rfl rfl

/-- **C8.** When `liquidate_unsafe_cdp` chooses the `Exchange` strategy
and `swap_collateral_to_stable` fails, no refund transfer and no
auction creation is attempted and the treasury retains the seized
collateral, yet the call still completes successfully and emits
`LiquidateUnsafeCDP(C, A, collat, bad_debt, Exchange)`. -/
theorem C8_exchange_swap_failure (ctx : Ctx) (s : EngineState) (e : Ext)
    (who : AccountId) (c : CurrencyId) (out : LiquidateOutcome)
    (h : liquidate_unsafe_cdp ctx s e who c = .ok out)
    (hx : out.liquidation_strategy = .Exchange)
    (hswap : ∀ supply target, e.swapCollateralToStableOk c supply target = false) :
    out.refund = none ∧ out.auction_created = none
      ∧ out.event = (c, who, e.collaterals who c,
          get_debit_value ctx s c (e.debits c who), .Exchange) := by
  simp only [liquidate_unsafe_cdp] at h
  split at h
  · exact absurd h (by simp)
  split at h
  · exact absurd h (by simp)
  split at h
  · rename_i hstrat
    split at h
    · rename_i hswapok
      rw [hswap _ _] at hswapok
      exact absurd hswapok (by simp)
    · injection h with h
      subst h
      exact ⟨rfl, rfl, rfl⟩
  · rename_i hstrat
    injection h with h
    subst h
    exact absurd hx (by simp)

/-- Witness for C8 at the concrete unsafe CDP with a failing swap. -/
theorem C8_witness :
    outW2.refund = none ∧ outW2.auction_created = none
      ∧ outW2.event = (1, 7, eW2.collaterals 7 1,
          get_debit_value ctxW sW 1 (eW2.debits 1 7), .Exchange) :=
  C8_exchange_swap_failure ctxW sW eW2 7 1 outW2 rfl rfl (fun _ _ => rfl)

/-- Accruing one currency does not touch the collateral params. -/
theorem accrue_preserves_collateralParams (ctx : Ctx) (e : Ext) (s : EngineState)
    (x : CurrencyId) :
    (accrue_currency ctx e s x).collateralParams = s.collateralParams := by
  simp only [accrue_currency]
  split
  · split <;> rfl
  · rfl

/-- Accruing one currency does not touch the global stability fee. -/
theorem accrue_preserves_globalStabilityFee (ctx : Ctx) (e : Ext) (s : EngineState)
    (x : CurrencyId) :
    (accrue_currency ctx e s x).globalStabilityFee = s.globalStabilityFee := by
  simp only [accrue_currency]
  split
  · split <;> rfl
  · rfl

/-- Accruing currency `x` leaves the stored exchange rate of any other
currency `c` unchanged. -/
theorem accrue_der_ne (ctx : Ctx) (e : Ext) (s : EngineState)
    (x c : CurrencyId) (hx : x ≠ c) :
    (accrue_currency ctx e s x).debitExchangeRate c = s.debitExchangeRate c := by
  have hcx : ¬ c = x := fun hs => hx hs.symm
  simp only [accrue_currency]
  split
  · split
    · simp [hcx]
    · rfl
  · rfl

/-- The stored exchange rate of `c` after accruing `c` itself, as a
function of the pre-state. -/
theorem accrue_der_self (ctx : Ctx) (e : Ext) (s : EngineState) (c : CurrencyId) :
    (accrue_currency ctx e s c).debitExchangeRate c =
      (if get_stability_fee s c ≠ 0 ∧ e.totalDebits c ≠ 0 then
        (if e.onSystemSurplusOk (satMulInt
              (satMulFixed (get_debit_exchange_rate ctx s c) (get_stability_fee s c))
              (get_debit_value ctx s c (e.totalDebits c))) then
          some (satAdd (get_debit_exchange_rate ctx s c)
            (satMulFixed (get_debit_exchange_rate ctx s c) (get_stability_fee s c)))
         else s.debitExchangeRate c)
       else s.debitExchangeRate c) := by
  simp only [accrue_currency]
  split
  · split
    · simp
    · rfl
  · rfl

/-- Folding the accrual over currencies not containing `c` leaves the
stored exchange rate of `c` unchanged. -/
theorem foldl_accrue_not_mem (ctx : Ctx) (e : Ext) (l : List CurrencyId)
    (c : CurrencyId) (hc : c ∉ l) :
    ∀ s : EngineState,
      (l.foldl (accrue_currency ctx e) s).debitExchangeRate c =
        s.debitExchangeRate c := by
  induction l with
  | nil => intro s; rfl
  | cons x xs ih =>
    intro s
    have hx : x ≠ c := by
      rintro rfl
      exact hc (List.mem_cons_self _ _)
    have hxs : c ∉ xs := fun hm => hc (List.mem_cons_of_mem _ hm)
    simp only [List.foldl_cons]
    rw [ih hxs, accrue_der_ne ctx e s x c hx]

/-- Folding the accrual over a duplicate-free list containing `c`,
starting from any state that agrees with `s` on the data the accrual of
`c` reads, yields at `c` exactly the single-step accrual from `s`. -/
theorem foldl_accrue_mem (ctx : Ctx) (e : Ext) (c : CurrencyId)
    (l : List CurrencyId) :
    ∀ s s' : EngineState, c ∈ l → l.Nodup →
      s'.debitExchangeRate c = s.debitExchangeRate c →
      s'.collateralParams = s.collateralParams →
      s'.globalStabilityFee = s.globalStabilityFee →
      (l.foldl (accrue_currency ctx e) s').debitExchangeRate c =
        (accrue_currency ctx e s c).debitExchangeRate c := by
  induction l with
  | nil => intro s s' hmem; cases hmem
  | cons x xs ih =>
    intro s s' hmem hnodup hder hcp hgsf
    simp only [List.foldl_cons]
    rcases List.mem_cons.mp hmem with heq | hmem'
    · subst heq
      have hnotin : c ∉ xs := (List.nodup_cons.mp hnodup).1
      rw [foldl_accrue_not_mem ctx e xs c hnotin]
      rw [accrue_der_self, accrue_der_self]
      simp only [get_debit_exchange_rate, get_stability_fee, get_debit_value,
        collateral_params, hder, hcp, hgsf]
    · by_cases hxc : x = c
      · subst hxc
        exact absurd hmem' (List.nodup_cons.mp hnodup).1
      · refine ih s (accrue_currency ctx e s' x) hmem'
          (List.nodup_cons.mp hnodup).2 ?_ ?_ ?_
        · rw [accrue_der_ne ctx e s' x c hxc, hder]
        · rw [accrue_preserves_collateralParams, hcp]
        · rw [accrue_preserves_globalStabilityFee, hgsf]

/-- **C2.** At every block finalization while the system is not shut
down, for every allowed collateral whose stability fee and total debits
are both non-zero, `on_finalize` computes the increment as the current
debit exchange rate times the stability fee (saturating) and sets the
stored exchange rate to the old rate plus that increment iff
`on_system_surplus(increment * total debit value)` returns success;
if the surplus call fails, the stored exchange rate is left
unchanged. -/
theorem C2_on_finalize_accrual (ctx : Ctx) (e : Ext) (s : EngineState)
    (c : CurrencyId)
    (hshut : s.isShutdown = false)
    (hmem : c ∈ ctx.collateralCurrencyIds)
    (hnodup : ctx.collateralCurrencyIds.Nodup)
    (hfee : get_stability_fee s c ≠ 0)
    (htd : e.totalDebits c ≠ 0) :
    (on_finalize ctx e s).debitExchangeRate c =
      (if e.onSystemSurplusOk (satMulInt
            (satMulFixed (get_debit_exchange_rate ctx s c) (get_stability_fee s c))
            (get_debit_value ctx s c (e.totalDebits c))) then
        some (satAdd (get_debit_exchange_rate ctx s c)
          (satMulFixed (get_debit_exchange_rate ctx s c) (get_stability_fee s c)))
       else s.debitExchangeRate c) := by
  unfold on_finalize
  rw [if_neg (by simp [hshut])]
  rw [foldl_accrue_mem ctx e c _ s s hmem hnodup rfl rfl rfl]
  rw [accrue_der_self]
  rw [if_pos ⟨hfee, htd⟩]

/-- Witness for C2 at the concrete runtime: one collateral with fee
0.01, total debits 1000, surplus accepted, so the stored rate becomes
1.01. -/
theorem C2_witness :
    (on_finalize ctxW eW sW3).debitExchangeRate 1 =
      (if eW.onSystemSurplusOk (satMulInt
            (satMulFixed (get_debit_exchange_rate ctxW sW3 1) (get_stability_fee sW3 1))
            (get_debit_value ctxW sW3 1 (eW.totalDebits 1))) then
        some (satAdd (get_debit_exchange_rate ctxW sW3 1)
          (satMulFixed (get_debit_exchange_rate ctxW sW3 1) (get_stability_fee sW3 1)))
       else sW3.debitExchangeRate 1) :=
  C2_on_finalize_accrual ctxW eW sW3 1 rfl (by decide) (by decide)
    (by decide) (by decide)

/-- A `set_collateral_params` call on an allowed collateral stores the
merge of the supplied values into the previously stored params and
deposits one event per `NewValue` field. -/
theorem set_collateral_params_ok (ctx : Ctx) (s : EngineState) (c : CurrencyId)
    (sf : Change (Option Rate)) (lr : Change (Option Ratio))
    (lp : Change (Option Rate)) (rcr : Change (Option Ratio))
    (mtdv : Change Balance)
    (hc : ctx.collateralCurrencyIds.contains c = true) :
    set_collateral_params ctx s c sf lr lp rcr mtdv = .ok
      ({ s with collateralParams := fun x =>
          if x = c then merged_params (collateral_params s c) sf lr lp rcr mtdv
          else s.collateralParams x },
        update_events c sf lr lp rcr mtdv) := by
  have hm : c ∈ ctx.collateralCurrencyIds := by simpa using hc
  cases sf <;> cases lr <;> cases lp <;> cases rcr <;> cases mtdv <;>
    simp [set_collateral_params, merged_params, update_events, collateral_params, hm]

/-- **C7 (counterexample).** The claim says a second identical
`set_collateral_params` call emits no update events; in the code every
field supplied as `NewValue` emits its event again, so the second of
two identical calls deposits the same non-empty event burst. -/
theorem C7_counterexample_second_call_emits :
    (set_collateral_params ctxW sAfterFirstCall 1 (Change.NewValue (some 3))
        Change.NoChange Change.NoChange Change.NoChange
        (Change.NewValue 5000)).map Prod.snd
      = Except.ok [EngineEvent.StabilityFeeUpdated 1 (some 3),
          EngineEvent.MaximumTotalDebitValueUpdated 1 5000]
    ∧ [EngineEvent.StabilityFeeUpdated 1 (some 3),
        EngineEvent.MaximumTotalDebitValueUpdated 1 5000] ≠ ([] : List EngineEvent) :=
  ⟨rfl, by decide⟩

/-- **C7 (amended).** Calling `set_collateral_params` twice in a row
with identical arguments on an allowed collateral leaves the stored
`RiskManagementParams` struct equal to the merge of the supplied new
values into the prior params (hence equal to the input wherever a value
is supplied), and the second call leaves the stored struct unchanged
but deposits the same update events again: an update event is emitted
for each field supplied as `NewValue` — whether or not its value
differs from the stored one — and the struct is persisted once at the
end. -/
theorem C7_amended_set_collateral_params_repeat (ctx : Ctx) (s : EngineState)
    (c : CurrencyId) (sf : Change (Option Rate)) (lr : Change (Option Ratio))
    (lp : Change (Option Rate)) (rcr : Change (Option Ratio))
    (mtdv : Change Balance)
    (hc : ctx.collateralCurrencyIds.contains c = true) :
    ∃ s1 ev1 s2,
      set_collateral_params ctx s c sf lr lp rcr mtdv = .ok (s1, ev1)
      ∧ set_collateral_params ctx s1 c sf lr lp rcr mtdv = .ok (s2, ev1)
      ∧ collateral_params s1 c = merged_params (collateral_params s c) sf lr lp rcr mtdv
      ∧ collateral_params s2 c = collateral_params s1 c
      ∧ ev1 = update_events c sf lr lp rcr mtdv := by
  refine ⟨_, _, _, set_collateral_params_ok ctx s c sf lr lp rcr mtdv hc,
    set_collateral_params_ok ctx _ c sf lr lp rcr mtdv hc, ?_, ?_, rfl⟩
  · simp [collateral_params]
  · simp only [collateral_params, if_pos rfl]
    cases sf <;> cases lr <;> cases lp <;> cases rcr <;> cases mtdv <;>
      simp [merged_params]

/-- Witness for C7 (amended) at the concrete runtime: two identical
calls setting the stability fee and the hard cap of currency 1. -/
theorem C7_witness :
    ∃ s1 ev1 s2,
      set_collateral_params ctxW sW 1 (Change.NewValue (some 3)) Change.NoChange
          Change.NoChange Change.NoChange (Change.NewValue 5000) = .ok (s1, ev1)
      ∧ set_collateral_params ctxW s1 1 (Change.NewValue (some 3)) Change.NoChange
          Change.NoChange Change.NoChange (Change.NewValue 5000) = .ok (s2, ev1)
      ∧ collateral_params s1 1 = merged_params (collateral_params sW 1)
          (Change.NewValue (some 3)) Change.NoChange Change.NoChange Change.NoChange
          (Change.NewValue 5000)
      ∧ collateral_params s2 1 = collateral_params s1 1
      ∧ ev1 = update_events 1 (Change.NewValue (some 3)) Change.NoChange
          Change.NoChange Change.NoChange (Change.NewValue 5000) :=
  C7_amended_set_collateral_params_repeat ctxW sW 1 (Change.NewValue (some 3))
    Change.NoChange Change.NoChange Change.NoChange (Change.NewValue 5000)
    (by decide)

end CdpEngine
